import Mathlib

/-!
Shallow embedding of two scrapy source files:

* `scrapy/core/downloader/tls.py` — `ScrapyClientTLSOptions`, whose
  `_identityVerifyingInfoCallback` sets SNI at handshake start, optionally
  logs connection parameters at handshake done, and downgrades hostname
  verification failures (`CertificateError`, `VerificationError`,
  `ValueError`) to warning log records instead of failing the connection.

* `scrapy/core/downloader/handlers/file.py` — `FileDownloadHandler`, whose
  `download_request` converts a file URL to a path, reads the bytes and
  returns a response whose class is inferred from the file name and body.

External collaborators (OpenSSL connection accessors, the twisted library
`verifyHostname`, `w3lib.url.file_uri_to_path`, `pathlib.Path.read_bytes`,
`responsetypes.from_args`, the formatting helpers of `scrapy.utils.ssl`)
are modelled as abstract environment data: the callback and the handler
are translated line by line from the source against that environment.
-/

namespace ScrapyTLS

/-- Python exception kinds distinguished by the except clauses of the callback:
`service_identity.exceptions.CertificateError`,
`twisted.internet._sslverify.VerificationError`, builtin `ValueError`
(not one of the former two), and any other exception (carrying its Python
class name and message), which no clause catches. -/
inductive PyError where
  | certificateError (msg : String)
  | verificationError (msg : String)
  | valueError (msg : String)
  | otherError (kind : String) (msg : String)
deriving DecidableEq, Repr

/-- Python `str(e)` for the exceptions above: the message. -/
def pyStr : PyError → String
  | .certificateError m => m
  | .verificationError m => m
  | .valueError m => m
  | .otherError _ m => m

/-- Python `repr(e)` (`%r` formatting), abstracted as class name applied to
the message. -/
def pyRepr : PyError → String
  | .certificateError m => "CertificateError(" ++ m ++ ")"
  | .verificationError m => "VerificationError(" ++ m ++ ")"
  | .valueError m => "ValueError(" ++ m ++ ")"
  | .otherError k m => k ++ "(" ++ m ++ ")"

/-- Severity of a log record emitted through `logger`. -/
inductive LogLevel where
  | debug
  | warning
deriving DecidableEq, Repr

instance : BEq LogLevel := ⟨fun a b => decide (a = b)⟩

/-- One record sent to the `logging` sink: a severity and the formatted
message (the `%`-interpolation already applied). -/
structure LogRecord where
  level : LogLevel
  msg : String
deriving DecidableEq, Repr

/-- The warning-level records among `l`. -/
def warningsOf (l : List LogRecord) : List LogRecord :=
  l.filter fun r => r.level == LogLevel.warning

/-- The debug-level records among `l`. -/
def debugsOf (l : List LogRecord) : List LogRecord :=
  l.filter fun r => r.level == LogLevel.debug

/-- `"SSL connection to %s using protocol %s, cipher %s"` interpolated. -/
def connParamsMsg (host proto cipher : String) : String :=
  "SSL connection to " ++ host ++ " using protocol " ++ proto ++
    ", cipher " ++ cipher

/-- `SSL connection certificate: issuer "%s", subject "%s"` interpolated,
the two arguments being `x509name_to_string` of issuer and subject. -/
def certParamsMsg (issuer subject : String) : String :=
  "SSL connection certificate: issuer \"" ++ issuer ++ "\", subject \"" ++
    subject ++ "\""

/-- `"SSL temp key: %s"` interpolated. -/
def tempKeyMsg (info : String) : String :=
  "SSL temp key: " ++ info

/-- `Remote certificate is not valid for hostname "%s"; %s` interpolated
with the ASCII hostname and `str(e)`. -/
def certWarnMsg (host errText : String) : String :=
  "Remote certificate is not valid for hostname \"" ++ host ++ "\"; " ++
    errText

/-- `Ignoring error while verifying certificate from host "%s"
(exception: %r)` interpolated with the ASCII hostname and `repr(e)`. -/
def ignoreWarnMsg (host errRepr : String) : String :=
  "Ignoring error while verifying certificate from host \"" ++ host ++
    "\" (exception: " ++ errRepr ++ ")"

/-- `SSL.SSL_CB_HANDSHAKE_START` (OpenSSL `0x10`). -/
def SSL_CB_HANDSHAKE_START : Nat := 0x10

/-- `SSL.SSL_CB_HANDSHAKE_DONE` (OpenSSL `0x20`). -/
def SSL_CB_HANDSHAKE_DONE : Nat := 0x20

/-- State and accessors of the live `SSL.Connection`, as far as the callback
reads or writes them.  `sni` is the slot written by `set_tlsext_host_name`;
`sniFailure` models the engine rejecting that call by raising; `verify`
gives the outcome of the twisted library `verifyHostname(connection, hostname)`
(`none` = verification succeeded); `peerCert` holds the formatted issuer
and subject names of `get_peer_certificate()` when a certificate is
present; `tempKeyInfo` is the truthy result of
`get_temp_key_info(connection._ssl)` when there is one. -/
structure Connection where
  sni : Option (List Nat)
  sniFailure : Option PyError
  protocolVersionName : String
  cipherName : String
  peerCert : Option (String × String)
  tempKeyInfo : Option String
  verify : String → Option PyError

/-- `connection.set_tlsext_host_name(name)`: stores the bytes, unless the
engine raises. -/
def Connection.set_tlsext_host_name (c : Connection) (name : List Nat) :
    Except PyError Connection :=
  match c.sniFailure with
  | some e => .error e
  | none => .ok { c with sni := some name }

/-- `ScrapyClientTLSOptions`: the attributes its callback reads.
`hostnameASCII` and `hostnameBytes` are set by `ClientTLSOptions.__init__`
from the hostname given to the constructor; `verbose_logging` is set by
`ScrapyClientTLSOptions.__init__`. -/
structure ScrapyClientTLSOptions where
  hostnameASCII : String
  hostnameBytes : List Nat
  verbose_logging : Bool

/-- Everything observable from one invocation of the callback: the options
object afterwards (the source never assigns to `self`, which the embedding
makes explicit), the connection afterwards, the log records emitted in
order, and the exception propagating out of the callback, if any. -/
structure CallbackResult where
  opts : ScrapyClientTLSOptions
  conn : Connection
  logs : List LogRecord
  exn : Option PyError

/-- The debug records of the `if self.verbose_logging:` block of
`_identityVerifyingInfoCallback`: connection parameters, then the
certificate record when `get_peer_certificate()` returns one, then the
temp-key record when `get_temp_key_info` returns truthy info. -/
def verboseLogs (opts : ScrapyClientTLSOptions) (conn : Connection) :
    List LogRecord :=
  if opts.verbose_logging then
    [⟨.debug, connParamsMsg opts.hostnameASCII conn.protocolVersionName
        conn.cipherName⟩] ++
    (match conn.peerCert with
     | some (issuer, subject) => [⟨.debug, certParamsMsg issuer subject⟩]
     | none => []) ++
    (match conn.tempKeyInfo with
     | some info => [⟨.debug, tempKeyMsg info⟩]
     | none => [])
  else []

/-- `ScrapyClientTLSOptions._identityVerifyingInfoCallback(connection,
where, ret)`, line by line: on `where & SSL_CB_HANDSHAKE_START` set SNI to
`self._hostnameBytes` (an engine failure propagates); else on
`where & SSL_CB_HANDSHAKE_DONE` emit the verbose debug records, then call
`verifyHostname(connection, self._hostnameASCII)`, catching
`CertificateError` and `VerificationError` with the
`Remote certificate is not valid` warning, catching `ValueError` with the
`Ignoring error while verifying certificate` warning, and letting any
other exception propagate; else do nothing.  `ret` is ignored by the
source and omitted. -/
def identityVerifyingInfoCallback (opts : ScrapyClientTLSOptions)
    (conn : Connection) (whereFlags : Nat) : CallbackResult :=
  if whereFlags &&& SSL_CB_HANDSHAKE_START ≠ 0 then
    match conn.set_tlsext_host_name opts.hostnameBytes with
    | .ok c => ⟨opts, c, [], none⟩
    | .error e => ⟨opts, conn, [], some e⟩
  else if whereFlags &&& SSL_CB_HANDSHAKE_DONE ≠ 0 then
    let dlogs := verboseLogs opts conn
    match conn.verify opts.hostnameASCII with
    | none => ⟨opts, conn, dlogs, none⟩
    | some (.certificateError m) =>
        ⟨opts, conn,
          dlogs ++ [⟨.warning,
            certWarnMsg opts.hostnameASCII (pyStr (.certificateError m))⟩],
          none⟩
    | some (.verificationError m) =>
        ⟨opts, conn,
          dlogs ++ [⟨.warning,
            certWarnMsg opts.hostnameASCII (pyStr (.verificationError m))⟩],
          none⟩
    | some (.valueError m) =>
        ⟨opts, conn,
          dlogs ++ [⟨.warning,
            ignoreWarnMsg opts.hostnameASCII (pyRepr (.valueError m))⟩],
          none⟩
    | some (.otherError k m) => ⟨opts, conn, dlogs, some (.otherError k m)⟩
  else ⟨opts, conn, [], none⟩

end ScrapyTLS

namespace ScrapyFile

/-- Error kinds surfaced by `download_request`: a malformed file URL
(`ValueError` out of `w3lib.url.file_uri_to_path`) or a missing/unreadable
path (`FileNotFoundError`/`OSError` out of `Path.read_bytes`). -/
inductive FileError where
  | invalidLocator (url : String)
  | notFound (path : String)
deriving DecidableEq, Repr

/-- Abstract environment for the external collaborators of the handler:
`wellFormed`/`toPath` model `w3lib.url.file_uri_to_path` (which fails on a
URL that is not a well-formed file URL and otherwise yields the filesystem
path); `files` models the filesystem read by `Path.read_bytes` (`none` =
the path is missing or unreadable); `inferType` models
`responsetypes.from_args(filename, body)`, the name of the response class
inferred from the resolved file name and the body. -/
structure FileEnv where
  wellFormed : String → Bool
  toPath : String → String
  files : String → Option (List Nat)
  inferType : String → List Nat → String

/-- `w3lib.url.file_uri_to_path(uri)` over the environment: fails with a
locator-format error on a URL that is not a well-formed file URL. -/
def file_uri_to_path (env : FileEnv) (uri : String) :
    Except FileError String :=
  if env.wellFormed uri then .ok (env.toPath uri) else
    .error (.invalidLocator uri)

/-- `Path(filepath).read_bytes()` over the environment: fails when the
path is missing or unreadable. -/
def read_bytes (env : FileEnv) (path : String) :
    Except FileError (List Nat) :=
  match env.files path with
  | some body => .ok body
  | none => .error (.notFound path)

/-- The response value `respcls(url=request.url, body=body)`: the original
request URL, the body bytes, and the response class chosen by
`responsetypes.from_args`. -/
structure Response where
  url : String
  body : List Nat
  cls : String
deriving DecidableEq, Repr

/-- `FileDownloadHandler.download_request(request, spider)`:
`filepath = file_uri_to_path(request.url)`,
`body = Path(filepath).read_bytes()`,
`respcls = responsetypes.from_args(filename=filepath, body=body)`,
`return respcls(url=request.url, body=body)`; the failure of each step is
surfaced to the caller of this single request. -/
def download_request (env : FileEnv) (url : String) :
    Except FileError Response :=
  match file_uri_to_path env url with
  | .error e => .error e
  | .ok filepath =>
    match read_bytes env filepath with
    | .error e => .error e
    | .ok body => .ok ⟨url, body, env.inferType filepath body⟩

end ScrapyFile

namespace ScrapyTLS

/-- `ScrapyClientTLSOptions.__init__(hostname, ctx, verbose_logging)`:
`ClientTLSOptions.__init__` stores `_hostnameASCII = _idnaText(hostname)`
and `_hostnameBytes = _idnaBytes(hostname)` (the idna encoders are
external, passed here as parameters; the TLS context is opaque and not
modelled), then `self.verbose_logging = verbose_logging`. -/
def mkScrapyClientTLSOptions (idnaText : String → String)
    (idnaBytes : String → List Nat) (hostname : String) (verbose : Bool) :
    ScrapyClientTLSOptions :=
  ⟨idnaText hostname, idnaBytes hostname, verbose⟩

/-- A sample connection for concrete evaluations, parameterised by the
outcome of `verifyHostname`. -/
def connOf (verify : String → Option PyError) : Connection where
  sni := none
  sniFailure := none
  protocolVersionName := "TLSv1.3"
  cipherName := "TLS_AES_256_GCM_SHA384"
  peerCert := some ("CN=Test CA", "CN=example.com")
  tempKeyInfo := some "X25519, 253 bits"
  verify := verify

/-- Sample options with verbose logging disabled. -/
def optsQuiet : ScrapyClientTLSOptions := ⟨"example.com", [101, 120], false⟩

/-- Sample options with verbose logging enabled. -/
def optsVerbose : ScrapyClientTLSOptions := ⟨"example.com", [101, 120], true⟩

end ScrapyTLS

namespace ScrapyFile

/-- A sample environment for concrete evaluations: exactly two file URLs
are well formed, path conversion drops their `file://` scheme, and only
`/tmp/a.txt` exists, holding the two bytes `hi`. -/
def envW : FileEnv where
  wellFormed := fun u =>
    if u = "file:///tmp/a.txt" then true
    else if u = "file:///tmp/missing.bin" then true
    else false
  toPath := fun u =>
    if u = "file:///tmp/a.txt" then "/tmp/a.txt" else "/tmp/missing.bin"
  files := fun p => if p = "/tmp/a.txt" then some [104, 105] else none
  inferType := fun _ _ => "TextResponse"

end ScrapyFile

namespace ScrapyTLS

theorem warningsOf_append (a b : List LogRecord) :
    warningsOf (a ++ b) = warningsOf a ++ warningsOf b := by
  simp [warningsOf]

theorem debugsOf_append (a b : List LogRecord) :
    debugsOf (a ++ b) = debugsOf a ++ debugsOf b := by
  simp [debugsOf]

theorem warningsOf_verboseLogs (opts : ScrapyClientTLSOptions)
    (conn : Connection) : warningsOf (verboseLogs opts conn) = [] := by
  unfold verboseLogs
  split
  · rcases hc : conn.peerCert with _ | ⟨i, s⟩ <;>
      rcases hk : conn.tempKeyInfo with _ | k <;> rfl
  · rfl

theorem debugsOf_verboseLogs (opts : ScrapyClientTLSOptions)
    (conn : Connection) :
    debugsOf (verboseLogs opts conn) = verboseLogs opts conn := by
  unfold verboseLogs
  split
  · rcases hc : conn.peerCert with _ | ⟨i, s⟩ <;>
      rcases hk : conn.tempKeyInfo with _ | k <;> rfl
  · rfl

theorem warningsOf_warning_singleton (m : String) :
    warningsOf [⟨.warning, m⟩] = [⟨.warning, m⟩] := rfl

theorem debugsOf_warning_singleton (m : String) :
    debugsOf [⟨.warning, m⟩] = [] := rfl

/-- Claim C1: on a handshake-done event where hostname verification raises
a `CertificateError` or a `VerificationError`, the callback catches it,
emits exactly one warning-level record — the
`Remote certificate is not valid` message naming the stored hostname and
the error text — propagates no exception, and leaves the connection
untouched. -/
theorem tls_identity_errors_downgraded_to_warning
    (opts : ScrapyClientTLSOptions) (conn : Connection) (w : Nat)
    (e : PyError)
    (hstart : w &&& SSL_CB_HANDSHAKE_START = 0)
    (hdone : w &&& SSL_CB_HANDSHAKE_DONE ≠ 0)
    (hkind : (∃ m, e = .certificateError m) ∨ (∃ m, e = .verificationError m))
    (hverify : conn.verify opts.hostnameASCII = some e) :
    (identityVerifyingInfoCallback opts conn w).exn = none ∧
    (identityVerifyingInfoCallback opts conn w).conn = conn ∧
    warningsOf (identityVerifyingInfoCallback opts conn w).logs =
      [⟨.warning, certWarnMsg opts.hostnameASCII (pyStr e)⟩] := by
  rcases hkind with ⟨m, rfl⟩ | ⟨m, rfl⟩ <;>
    simp [identityVerifyingInfoCallback, hstart, hdone, hverify,
      warningsOf_append, warningsOf_verboseLogs,
      warningsOf_warning_singleton, pyStr]

theorem tls_identity_errors_downgraded_to_warning_witness :
    (identityVerifyingInfoCallback optsQuiet
        (connOf fun _ => some (.certificateError "hostname mismatch"))
        0x20).exn = none ∧
    (identityVerifyingInfoCallback optsQuiet
        (connOf fun _ => some (.certificateError "hostname mismatch"))
        0x20).conn =
      (connOf fun _ => some (.certificateError "hostname mismatch")) ∧
    warningsOf (identityVerifyingInfoCallback optsQuiet
        (connOf fun _ => some (.certificateError "hostname mismatch"))
        0x20).logs =
      [⟨.warning, certWarnMsg "example.com" "hostname mismatch"⟩] :=
  tls_identity_errors_downgraded_to_warning optsQuiet
    (connOf fun _ => some (.certificateError "hostname mismatch")) 0x20
    (.certificateError "hostname mismatch")
    (by decide) (by decide) (Or.inl ⟨_, rfl⟩) rfl

end ScrapyTLS

namespace ScrapyTLS

/-- Claim C2: on a handshake-done event where hostname verification raises
a `ValueError` (not a `CertificateError` or `VerificationError`), the
callback catches it and emits exactly one warning-level record — the
`Ignoring error while verifying certificate` message with the stored
hostname and the repr of the exception — propagates no exception, and
leaves the connection untouched. -/
theorem tls_value_error_ignored_with_warning
    (opts : ScrapyClientTLSOptions) (conn : Connection) (w : Nat)
    (m : String)
    (hstart : w &&& SSL_CB_HANDSHAKE_START = 0)
    (hdone : w &&& SSL_CB_HANDSHAKE_DONE ≠ 0)
    (hverify : conn.verify opts.hostnameASCII = some (.valueError m)) :
    (identityVerifyingInfoCallback opts conn w).exn = none ∧
    (identityVerifyingInfoCallback opts conn w).conn = conn ∧
    warningsOf (identityVerifyingInfoCallback opts conn w).logs =
      [⟨.warning, ignoreWarnMsg opts.hostnameASCII
          (pyRepr (.valueError m))⟩] := by
  simp [identityVerifyingInfoCallback, hstart, hdone, hverify,
    warningsOf_append, warningsOf_verboseLogs, warningsOf_warning_singleton]

theorem tls_value_error_ignored_with_warning_witness :
    (identityVerifyingInfoCallback optsQuiet
        (connOf fun _ => some (.valueError "bad input")) 0x20).exn = none ∧
    (identityVerifyingInfoCallback optsQuiet
        (connOf fun _ => some (.valueError "bad input")) 0x20).conn =
      (connOf fun _ => some (.valueError "bad input")) ∧
    warningsOf (identityVerifyingInfoCallback optsQuiet
        (connOf fun _ => some (.valueError "bad input")) 0x20).logs =
      [⟨.warning, ignoreWarnMsg "example.com" "ValueError(bad input)"⟩] :=
  tls_value_error_ignored_with_warning optsQuiet
    (connOf fun _ => some (.valueError "bad input")) 0x20 "bad input"
    (by decide) (by decide) rfl

/-- Claim C3: on a handshake-done event where hostname verification raises
an exception that is none of `CertificateError`, `VerificationError` or
`ValueError`, no except clause catches it: it propagates unmodified out of
the callback (terminating the handshake), no warning record is emitted
and the connection state is untouched. -/
theorem tls_other_errors_propagate
    (opts : ScrapyClientTLSOptions) (conn : Connection) (w : Nat)
    (k m : String)
    (hstart : w &&& SSL_CB_HANDSHAKE_START = 0)
    (hdone : w &&& SSL_CB_HANDSHAKE_DONE ≠ 0)
    (hverify : conn.verify opts.hostnameASCII = some (.otherError k m)) :
    (identityVerifyingInfoCallback opts conn w).exn =
      some (.otherError k m) ∧
    warningsOf (identityVerifyingInfoCallback opts conn w).logs = [] ∧
    (identityVerifyingInfoCallback opts conn w).conn = conn := by
  simp [identityVerifyingInfoCallback, hstart, hdone, hverify,
    warningsOf_verboseLogs]

theorem tls_other_errors_propagate_witness :
    (identityVerifyingInfoCallback optsQuiet
        (connOf fun _ => some (.otherError "TypeError" "boom")) 0x20).exn =
      some (.otherError "TypeError" "boom") ∧
    warningsOf (identityVerifyingInfoCallback optsQuiet
        (connOf fun _ => some (.otherError "TypeError" "boom")) 0x20).logs =
      [] ∧
    (identityVerifyingInfoCallback optsQuiet
        (connOf fun _ => some (.otherError "TypeError" "boom")) 0x20).conn =
      (connOf fun _ => some (.otherError "TypeError" "boom")) :=
  tls_other_errors_propagate optsQuiet
    (connOf fun _ => some (.otherError "TypeError" "boom")) 0x20
    "TypeError" "boom" (by decide) (by decide) rfl

/-- Claim C4: on a handshake-start event the callback sets the SNI value
of the connection to exactly the stored hostname bytes and does nothing
else (no log record, no exception, no other connection change); if the
engine rejects the SNI assignment, that failure propagates unmodified and
nothing else happens. -/
theorem tls_handshake_start_sets_sni
    (opts : ScrapyClientTLSOptions) (conn : Connection) (w : Nat)
    (hstart : w &&& SSL_CB_HANDSHAKE_START ≠ 0) :
    (conn.sniFailure = none →
      identityVerifyingInfoCallback opts conn w =
        ⟨opts, { conn with sni := some opts.hostnameBytes }, [], none⟩) ∧
    (∀ e, conn.sniFailure = some e →
      identityVerifyingInfoCallback opts conn w =
        ⟨opts, conn, [], some e⟩) := by
  constructor
  · intro h
    simp [identityVerifyingInfoCallback, hstart,
      Connection.set_tlsext_host_name, h]
  · intro e h
    simp [identityVerifyingInfoCallback, hstart,
      Connection.set_tlsext_host_name, h]

theorem tls_handshake_start_sets_sni_witness :
    identityVerifyingInfoCallback optsQuiet (connOf fun _ => none) 0x10 =
      ⟨optsQuiet, { connOf fun _ => none with sni := some [101, 120] },
        [], none⟩ :=
  (tls_handshake_start_sets_sni optsQuiet (connOf fun _ => none) 0x10
    (by decide)).1 rfl

end ScrapyTLS

namespace ScrapyTLS

theorem debugsOf_callback_done
    (opts : ScrapyClientTLSOptions) (conn : Connection) (w : Nat)
    (hstart : w &&& SSL_CB_HANDSHAKE_START = 0)
    (hdone : w &&& SSL_CB_HANDSHAKE_DONE ≠ 0) :
    debugsOf (identityVerifyingInfoCallback opts conn w).logs =
      verboseLogs opts conn := by
  rcases hv : conn.verify opts.hostnameASCII with _ | e
  · simp [identityVerifyingInfoCallback, hstart, hdone, hv,
      debugsOf_verboseLogs]
  · cases e <;>
      simp [identityVerifyingInfoCallback, hstart, hdone, hv,
        debugsOf_append, debugsOf_verboseLogs, debugsOf_warning_singleton]

/-- Claim C5: on a handshake-done event, if verbose logging is enabled the
debug-level records emitted are: the hostname/protocol/cipher record,
then the issuer/subject record exactly when a peer certificate is
present, then the temp-key record exactly when the engine exposes key
info — each of the three independent of the absence of the others; if
verbose logging is disabled, no debug-level record is emitted. -/
theorem tls_verbose_debug_records
    (opts : ScrapyClientTLSOptions) (conn : Connection) (w : Nat)
    (hstart : w &&& SSL_CB_HANDSHAKE_START = 0)
    (hdone : w &&& SSL_CB_HANDSHAKE_DONE ≠ 0) :
    (opts.verbose_logging = true →
      debugsOf (identityVerifyingInfoCallback opts conn w).logs =
        [⟨.debug, connParamsMsg opts.hostnameASCII
            conn.protocolVersionName conn.cipherName⟩] ++
        (match conn.peerCert with
         | some (issuer, subject) =>
            [⟨.debug, certParamsMsg issuer subject⟩]
         | none => []) ++
        (match conn.tempKeyInfo with
         | some info => [⟨.debug, tempKeyMsg info⟩]
         | none => [])) ∧
    (opts.verbose_logging = false →
      debugsOf (identityVerifyingInfoCallback opts conn w).logs = []) := by
  rw [debugsOf_callback_done opts conn w hstart hdone]
  constructor
  · intro hverb
    unfold verboseLogs
    rw [hverb]
    simp
  · intro hverb
    unfold verboseLogs
    rw [hverb]
    simp

theorem tls_verbose_debug_records_witness :
    debugsOf (identityVerifyingInfoCallback optsVerbose
        (connOf fun _ => none) 0x20).logs =
      [⟨.debug, connParamsMsg "example.com" "TLSv1.3"
          "TLS_AES_256_GCM_SHA384"⟩,
       ⟨.debug, certParamsMsg "CN=Test CA" "CN=example.com"⟩,
       ⟨.debug, tempKeyMsg "X25519, 253 bits"⟩] ∧
    debugsOf (identityVerifyingInfoCallback optsQuiet
        (connOf fun _ => none) 0x20).logs = [] :=
  ⟨(tls_verbose_debug_records optsVerbose (connOf fun _ => none) 0x20
      (by decide) (by decide)).1 rfl,
   (tls_verbose_debug_records optsQuiet (connOf fun _ => none) 0x20
      (by decide) (by decide)).2 rfl⟩

theorem callback_opts_eq (opts : ScrapyClientTLSOptions) (conn : Connection)
    (w : Nat) : (identityVerifyingInfoCallback opts conn w).opts = opts := by
  by_cases h1 : w &&& SSL_CB_HANDSHAKE_START ≠ 0
  · rcases h : conn.set_tlsext_host_name opts.hostnameBytes with e | c <;>
      simp [identityVerifyingInfoCallback, h1, h]
  · by_cases h2 : w &&& SSL_CB_HANDSHAKE_DONE ≠ 0
    · rcases hv : conn.verify opts.hostnameASCII with _ | e
      · simp [identityVerifyingInfoCallback, h1, h2, hv]
      · cases e <;> simp [identityVerifyingInfoCallback, h1, h2, hv]
    · simp [identityVerifyingInfoCallback, h1, h2]

/-- Claim C9: the stored ASCII hostname, the stored hostname bytes and the
verbose-logging flag are exactly the values computed at construction, and
every invocation of the handshake-progress callback, for every event
bitmask, leaves the options object unchanged. -/
theorem tls_options_fixed_and_unchanged
    (idnaText : String → String) (idnaBytes : String → List Nat)
    (hostname : String) (verbose : Bool) (conn : Connection) (w : Nat) :
    (identityVerifyingInfoCallback
        (mkScrapyClientTLSOptions idnaText idnaBytes hostname verbose)
        conn w).opts =
      mkScrapyClientTLSOptions idnaText idnaBytes hostname verbose ∧
    (identityVerifyingInfoCallback
        (mkScrapyClientTLSOptions idnaText idnaBytes hostname verbose)
        conn w).opts.hostnameASCII = idnaText hostname ∧
    (identityVerifyingInfoCallback
        (mkScrapyClientTLSOptions idnaText idnaBytes hostname verbose)
        conn w).opts.hostnameBytes = idnaBytes hostname ∧
    (identityVerifyingInfoCallback
        (mkScrapyClientTLSOptions idnaText idnaBytes hostname verbose)
        conn w).opts.verbose_logging = verbose := by
  have h := callback_opts_eq
    (mkScrapyClientTLSOptions idnaText idnaBytes hostname verbose) conn w
  refine ⟨h, ?_, ?_, ?_⟩ <;> rw [h] <;> rfl

/-- Claim C10: two handshake-done invocations on the same connection state
and hostname that differ only in the verbose-logging flag produce the
same warning-level records, the same propagated exception (if any) and
the same final connection state: the flag influences only the debug-level
records. -/
theorem tls_verbose_flag_noninterference
    (host : String) (hb : List Nat) (v1 v2 : Bool) (conn : Connection)
    (w : Nat)
    (hstart : w &&& SSL_CB_HANDSHAKE_START = 0)
    (hdone : w &&& SSL_CB_HANDSHAKE_DONE ≠ 0) :
    warningsOf (identityVerifyingInfoCallback ⟨host, hb, v1⟩ conn w).logs =
      warningsOf (identityVerifyingInfoCallback ⟨host, hb, v2⟩ conn w).logs ∧
    (identityVerifyingInfoCallback ⟨host, hb, v1⟩ conn w).exn =
      (identityVerifyingInfoCallback ⟨host, hb, v2⟩ conn w).exn ∧
    (identityVerifyingInfoCallback ⟨host, hb, v1⟩ conn w).conn =
      (identityVerifyingInfoCallback ⟨host, hb, v2⟩ conn w).conn := by
  rcases hv : conn.verify host with _ | e
  · simp [identityVerifyingInfoCallback, hstart, hdone, hv,
      warningsOf_append, warningsOf_verboseLogs,
      warningsOf_warning_singleton]
  · cases e <;>
      simp [identityVerifyingInfoCallback, hstart, hdone, hv,
        warningsOf_append, warningsOf_verboseLogs,
        warningsOf_warning_singleton]

theorem tls_verbose_flag_noninterference_witness :
    warningsOf (identityVerifyingInfoCallback
        ⟨"example.com", [101, 120], true⟩
        (connOf fun _ => some (.verificationError "untrusted")) 0x20).logs =
      warningsOf (identityVerifyingInfoCallback
        ⟨"example.com", [101, 120], false⟩
        (connOf fun _ => some (.verificationError "untrusted")) 0x20).logs ∧
    (identityVerifyingInfoCallback ⟨"example.com", [101, 120], true⟩
        (connOf fun _ => some (.verificationError "untrusted")) 0x20).exn =
      (identityVerifyingInfoCallback ⟨"example.com", [101, 120], false⟩
        (connOf fun _ => some (.verificationError "untrusted")) 0x20).exn ∧
    (identityVerifyingInfoCallback ⟨"example.com", [101, 120], true⟩
        (connOf fun _ => some (.verificationError "untrusted")) 0x20).conn =
      (identityVerifyingInfoCallback ⟨"example.com", [101, 120], false⟩
        (connOf fun _ => some (.verificationError "untrusted")) 0x20).conn :=
  tls_verbose_flag_noninterference "example.com" [101, 120] true false
    (connOf fun _ => some (.verificationError "untrusted")) 0x20
    (by decide) (by decide)

end ScrapyTLS

namespace ScrapyFile

/-- Claim C6: for a well-formed file URL whose resolved path holds readable
bytes, `download_request` returns a response whose body is exactly those
bytes, whose url is the original request URL, and whose response class is
the one inferred from the resolved file name and the body. -/
theorem file_download_returns_file_bytes (env : FileEnv)
    (url filepath : String) (body : List Nat)
    (hwf : env.wellFormed url = true)
    (hpath : env.toPath url = filepath)
    (hread : env.files filepath = some body) :
    download_request env url =
      .ok ⟨url, body, env.inferType filepath body⟩ := by
  simp [download_request, file_uri_to_path, read_bytes, hwf, hpath, hread]

theorem file_download_returns_file_bytes_witness :
    download_request envW "file:///tmp/a.txt" =
      .ok ⟨"file:///tmp/a.txt", [104, 105], "TextResponse"⟩ :=
  file_download_returns_file_bytes envW "file:///tmp/a.txt" "/tmp/a.txt"
    [104, 105] (by decide) (by decide) (by decide)

/-- Claim C7: `download_request` fails with the locator-format error when
the URL is not a well-formed file URL, and with the not-found/read error
naming the resolved path when the URL is well formed but the path is
missing or unreadable; in each case the error is the result surfaced to
the caller of this single request. -/
theorem file_download_error_cases (env : FileEnv) (url : String) :
    (env.wellFormed url = false →
      download_request env url = .error (.invalidLocator url)) ∧
    (env.wellFormed url = true → env.files (env.toPath url) = none →
      download_request env url = .error (.notFound (env.toPath url))) := by
  constructor
  · intro hwf
    simp [download_request, file_uri_to_path, hwf]
  · intro hwf hmiss
    simp [download_request, file_uri_to_path, read_bytes, hwf, hmiss]

theorem file_download_error_cases_witness :
    download_request envW "not-a-file-url" =
      .error (.invalidLocator "not-a-file-url") ∧
    download_request envW "file:///tmp/missing.bin" =
      .error (.notFound (envW.toPath "file:///tmp/missing.bin")) :=
  ⟨(file_download_error_cases envW "not-a-file-url").1 (by decide),
   (file_download_error_cases envW "file:///tmp/missing.bin").2
     (by decide) (by decide)⟩

/-- Claim C8: two invocations of `download_request` on a locator whose
resolution and file content are unchanged between the calls (the two
environments agree on well-formedness, resolved path, file bytes and
inferred type at that locator) return identical results: same body bytes,
same url, same inferred response class. -/
theorem file_download_idempotent (e1 e2 : FileEnv) (url : String)
    (h1 : e1.wellFormed url = e2.wellFormed url)
    (h2 : e1.toPath url = e2.toPath url)
    (h3 : e1.files (e1.toPath url) = e2.files (e2.toPath url))
    (h4 : e1.inferType (e1.toPath url) = e2.inferType (e2.toPath url)) :
    download_request e1 url = download_request e2 url := by
  by_cases hwf : e1.wellFormed url = true
  · have hwf2 : e2.wellFormed url = true := by rw [← h1]; exact hwf
    rcases hf : e1.files (e1.toPath url) with _ | b
    · have hf2 : e2.files (e2.toPath url) = none := by rw [← h3, hf]
      have hf1 : e1.files (e2.toPath url) = none := by rw [← h2]; exact hf
      simp [download_request, file_uri_to_path, read_bytes, hwf, hwf2,
        hf1, hf2, h2]
    · have hf2 : e2.files (e2.toPath url) = some b := by rw [← h3, hf]
      have hf1 : e1.files (e2.toPath url) = some b := by rw [← h2]; exact hf
      have hi : e1.inferType (e2.toPath url) b =
          e2.inferType (e2.toPath url) b := by rw [← h2, h4, h2]
      simp [download_request, file_uri_to_path, read_bytes, hwf, hwf2,
        hf1, hf2, h2, hi]
  · rw [Bool.not_eq_true] at hwf
    have hwf2 : e2.wellFormed url = false := by rw [← h1]; exact hwf
    simp [download_request, file_uri_to_path, hwf, hwf2]

theorem file_download_idempotent_witness :
    download_request envW "file:///tmp/a.txt" =
      download_request envW "file:///tmp/a.txt" :=
  file_download_idempotent envW envW "file:///tmp/a.txt" rfl rfl rfl rfl

end ScrapyFile
